import Mathlib

/-!
Shallow embedding of the client-side data-synchronization core of
`src/page.tsx` (the `HomePage` React component of the aggregated-news
browser).  The component's `useState` hooks become the fields of
`HomeState`; each async handler is split at its `await` points into a
synchronous "start" step and a "resolve" step applied when the network
response arrives, so that overlapping calls are traces of these steps.
React closure capture (an async handler keeps the state values of the
render in which it was created) is modelled by recording the captured
values explicitly at the start step.
-/

/-- Article shape received from `GET /api/articles` (interface `Article`,
src/page.tsx lines 6-17).  Optional fields are `Option`. -/
structure Article where
  id : String
  title : String
  summary : String
  author : Option String
  publishDate : String
  category : String
  source : String
  url : String
  imageUrl : Option String
  readingTime : Option Int
deriving DecidableEq, Repr

/-- Stats shape received from `GET /api/stats` (interface `Stats`,
src/page.tsx lines 19-24); the record `categoryCounts` is an association
list. -/
structure Stats where
  totalArticles : Int
  totalSources : Int
  activeSources : Int
  categoryCounts : List (String × Int)
deriving DecidableEq, Repr

/-- The component state: one field per `useState` hook of `HomePage`
(src/page.tsx lines 27-35).  JS numbers holding page counts are `Int`. -/
structure HomeState where
  articles : List Article
  stats : Option Stats
  categories : List String
  selectedCategory : String
  loading : Bool
  refreshing : Bool
  currentPage : Int
  totalPages : Int
  error : String
deriving DecidableEq, Repr

/-- Initial values of the `useState` hooks (src/page.tsx lines 27-35):
empty lists, no stats, category "" (= all), `loading` starts `true`,
page and totalPages start at 1, empty error string. -/
def initialState : HomeState :=
  { articles := []
    stats := none
    categories := []
    selectedCategory := ""
    loading := true
    refreshing := false
    currentPage := 1
    totalPages := 1
    error := "" }

/-- JS `a || b` on an optional string `a`: a missing field (`none`) and
the empty string are falsy, any other string is returned as is. -/
def jsOr (a : Option String) (b : String) : String :=
  match a with
  | some v => if v = "" then b else v
  | none => b

/-- Request issued by `fetchArticles(page, category)`: query params
`page`, `limit='12'`, and `category` appended only when the string is
truthy, i.e. nonempty (src/page.tsx lines 41-48). -/
structure ArticlesRequest where
  page : Int
  limit : Int
  category : Option String
deriving DecidableEq, Repr

/-- Builds the `/api/articles` request exactly as the `URLSearchParams`
block of `fetchArticles` does (src/page.tsx lines 41-48). -/
def mkArticlesRequest (page : Int) (category : String) : ArticlesRequest :=
  { page := page
    limit := 12
    category := if category = "" then none else some category }

/-- Outcome of one `/api/articles` round trip as `fetchArticles`
distinguishes them: `ok` carries `data.articles` and
`data.pagination` (lines 53-57); `err` is a non-ok response whose
`data.error` may be absent (line 59); `netfail` is a thrown
transport/parse failure caught at line 61. -/
inductive ArticlesResponse where
  | ok (articles : List Article) (currentPage : Int) (totalPages : Int)
  | err (error : Option String)
  | netfail
deriving DecidableEq, Repr

/-- Synchronous part of `fetchArticles` before its `await fetch`:
`setLoading(true)` (src/page.tsx line 40). -/
def fetchArticlesStart (s : HomeState) : HomeState :=
  { s with loading := true }

/-- Resolution of one `fetchArticles` call when its response arrives
(src/page.tsx lines 53-66).  On ok: set articles, totalPages,
currentPage from the response and clear the error.  On a non-ok
response: set the error to `data.error || 'Kunne ikke hente artikler'`.
On a caught transport failure: set the generic network message.  The
`finally` block always does `setLoading(false)`.  No branch touches
`articles` except the ok branch. -/
def fetchArticlesResolve (r : ArticlesResponse) (s : HomeState) : HomeState :=
  match r with
  | .ok arts cp tp =>
      { s with articles := arts, totalPages := tp, currentPage := cp,
               error := "", loading := false }
  | .err e =>
      { s with error := jsOr e "Kunne ikke hente artikler", loading := false }
  | .netfail =>
      { s with error := "Nettverksfeil ved henting av artikler", loading := false }

/-- Outcome of one `/api/stats` round trip (src/page.tsx lines 70-80). -/
inductive StatsResponse where
  | ok (stats : Stats)
  | err
  | netfail
deriving DecidableEq, Repr

/-- True on the two failure outcomes of a stats fetch. -/
def StatsResponse.failed : StatsResponse → Bool
  | .ok _ => false
  | .err => true
  | .netfail => true

/-- Resolution of `fetchStats` (src/page.tsx lines 70-80): on ok it
replaces the held stats; a non-ok response does nothing (there is no
else branch); a caught transport failure only logs to the console. -/
def fetchStatsResolve (r : StatsResponse) (s : HomeState) : HomeState :=
  match r with
  | .ok st => { s with stats := some st }
  | .err => s
  | .netfail => s

/-- Outcome of one `/api/categories` round trip (src/page.tsx
lines 83-93). -/
inductive CategoriesResponse where
  | ok (categories : List String)
  | err
  | netfail
deriving DecidableEq, Repr

/-- True on the two failure outcomes of a categories fetch. -/
def CategoriesResponse.failed : CategoriesResponse → Bool
  | .ok _ => false
  | .err => true
  | .netfail => true

/-- Resolution of `fetchCategories` (src/page.tsx lines 83-93): on ok it
replaces the held category list; both failure kinds do nothing. -/
def fetchCategoriesResolve (r : CategoriesResponse) (s : HomeState) : HomeState :=
  match r with
  | .ok cats => { s with categories := cats }
  | .err => s
  | .netfail => s

/-- `handleCategoryChange(category)` (src/page.tsx lines 118-122):
`setSelectedCategory(category)`, `setCurrentPage(1)`, then
`fetchArticles(1, category)` — whose synchronous prefix sets
`loading := true` and issues exactly one request built from the
arguments `1` and `category`. -/
def handleCategoryChange (category : String) (s : HomeState) :
    HomeState × ArticlesRequest :=
  ({ s with selectedCategory := category, currentPage := 1, loading := true },
   mkArticlesRequest 1 category)

/-- `handlePageChange(page)` (src/page.tsx lines 125-128):
`setCurrentPage(page)` with no clamping, then
`fetchArticles(page, selectedCategory)`. -/
def handlePageChange (page : Int) (s : HomeState) :
    HomeState × ArticlesRequest :=
  ({ s with currentPage := page, loading := true },
   mkArticlesRequest page s.selectedCategory)

/-- The previous-page button (src/page.tsx lines 386-392): it calls
`handlePageChange(currentPage - 1)` and carries
`disabled=\x7bcurrentPage === 1\x7d`, so a click on page 1 does
nothing. -/
def clickPrevPage (s : HomeState) : HomeState :=
  if s.currentPage = 1 then s else (handlePageChange (s.currentPage - 1) s).1

/-- The next-page button (src/page.tsx lines 398-404): it calls
`handlePageChange(currentPage + 1)` and carries
`disabled=\x7bcurrentPage === totalPages\x7d`. -/
def clickNextPage (s : HomeState) : HomeState :=
  if s.currentPage = s.totalPages then s else (handlePageChange (s.currentPage + 1) s).1

/-- Values `handleRefresh` closes over at the render in which it was
invoked: the `currentPage` and `selectedCategory` it will pass to
`fetchArticles` at line 103 are the ones captured by the closure, not
the ones current when the refresh response arrives. -/
structure PendingRefresh where
  capturedPage : Int
  capturedCategory : String
deriving DecidableEq, Repr

/-- A click on either refresh button (src/page.tsx lines 229-235 and
373-379).  Both carry `disabled=\x7brefreshing\x7d`, so while a refresh
is outstanding the click raises no event at all.  Otherwise
`handleRefresh` runs synchronously up to its `await fetch('/api/refresh')`
(lines 96-99): `setRefreshing(true)` and one `POST /refresh` network
call is issued, carrying the closure-captured filter/page state the
later reload will use.  The returned option is `some` exactly when a
`triggerRefresh` network call was made. -/
def clickRefresh (s : HomeState) : HomeState × Option PendingRefresh :=
  if s.refreshing then (s, none)
  else ({ s with refreshing := true },
        some { capturedPage := s.currentPage, capturedCategory := s.selectedCategory })

/-- The articles request issued by the reload step of `handleRefresh`
after `triggerRefresh` succeeds: `await fetchArticles(currentPage,
selectedCategory)` (src/page.tsx line 103), where both values are the
closure-captured ones. -/
def refreshReloadRequest (p : PendingRefresh) : ArticlesRequest :=
  mkArticlesRequest p.capturedPage p.capturedCategory

/-- The `finally` block of `handleRefresh` (src/page.tsx line 113):
whatever the outcome, `setRefreshing(false)`. -/
def handleRefreshSettle (s : HomeState) : HomeState :=
  { s with refreshing := false }

/-- Per-image DOM state that `handleImageError` (src/page.tsx
lines 162-178) reads and writes: the `data-fallback-attempted` flag,
the current `src`, whether `style.display` is `'none'`, and how many
`.image-fallback` children have been appended to the parent (the
`querySelector` guard at line 171 checks whether this is nonzero). -/
structure ImgState where
  fallbackAttempted : Bool
  src : String
  hidden : Bool
  placeholderCount : Nat
deriving DecidableEq, Repr

/-- The fixed generic fallback image substituted on the first load
error (src/page.tsx line 166). -/
def fallbackImageUrl : String :=
  "https://storage.googleapis.com/workspace-0f70711f-8b4e-4d94-86f1-2a93ccde5887/image/e9c2df8f-c37e-4964-b641-53c56348d05e.png))\x7d"

/-- An `img` freshly rendered with `src=\x7barticle.imageUrl\x7d`
(src/page.tsx lines 292-297): flag unset, visible, no fallback child. -/
def initImgState (url : String) : ImgState :=
  { fallbackAttempted := false, src := url, hidden := false, placeholderCount := 0 }

/-- One `onError` event handled by `handleImageError` (src/page.tsx
lines 162-178).  First error (flag unset): set the flag and swap `src`
to the fixed fallback image.  Any later error: hide the element and
append one `.image-fallback` placeholder unless the parent already has
one. -/
def handleImageError (s : ImgState) : ImgState :=
  if !s.fallbackAttempted then
    { s with fallbackAttempted := true, src := fallbackImageUrl }
  else
    { s with hidden := true,
             placeholderCount :=
               if s.placeholderCount = 0 then 1 else s.placeholderCount }

/-- The three-phase image load state of spec section 4.4, observed from
the DOM state: a hidden element is the text placeholder, a visible one
is past `Primary` exactly when the fallback flag is set. -/
inductive ImageLoadState where
  | primary
  | fallbackImage
  | fallbackPlaceholder
deriving DecidableEq, Repr

/-- Observation function from DOM state to the spec's phase. -/
def imgPhase (s : ImgState) : ImageLoadState :=
  if s.hidden then .fallbackPlaceholder
  else if s.fallbackAttempted then .fallbackImage
  else .primary

/-- Sample article used in concrete traces. -/
def sampleArticleA : Article :=
  { id := "a", title := "A", summary := "sa", author := none,
    publishDate := "2024-01-01", category := "helse", source := "srcA",
    url := "https://example.org/a", imageUrl := none, readingTime := some 3 }

/-- Second sample article used in concrete traces. -/
def sampleArticleB : Article :=
  { id := "b", title := "B", summary := "sb", author := some "X",
    publishDate := "2024-01-02", category := "politikk", source := "srcB",
    url := "https://example.org/b", imageUrl := none, readingTime := none }

/-- Concrete state on page 2 with category "helse" selected, used in
refresh traces. -/
def statePage2Helse : HomeState :=
  { initialState with currentPage := 2, selectedCategory := "helse" }

/-- Concrete state on page 2 of 3, used in pagination traces. -/
def statePage2Of3 : HomeState :=
  { initialState with currentPage := 2, totalPages := 3 }

/- ------------------------------------------------------------------ -/
/- Helper lemmas                                                       -/
/- ------------------------------------------------------------------ -/

/-- The fallback error message of `fetchArticles` is never empty, so
`jsOr e` of it is never empty. -/
lemma jsOr_fetch_fallback_ne_empty (e : Option String) :
    jsOr e "Kunne ikke hente artikler" ≠ "" := by
  match e with
  | none => simp [jsOr]
  | some v =>
      by_cases h : v = "" <;> simp [jsOr, h]

/-- The terminal image state after two load errors from `Primary`. -/
def imgTerminal : ImgState :=
  { fallbackAttempted := true, src := fallbackImageUrl,
    hidden := true, placeholderCount := 1 }

/-- Two errors from a fresh image land in the terminal state. -/
lemma iterate_two_eq_terminal (url : String) :
    handleImageError^[2] (initImgState url) = imgTerminal := rfl

/-- The terminal state is a fixed point of the error handler. -/
lemma handleImageError_terminal_fixed :
    handleImageError imgTerminal = imgTerminal := rfl

/-- After two or more errors the state no longer moves. -/
lemma iterate_stabilizes (url : String) (n : Nat) :
    handleImageError^[n + 2] (initImgState url) = imgTerminal := by
  induction n with
  | zero => exact iterate_two_eq_terminal url
  | succ k ih =>
      have h : handleImageError^[k + 2 + 1] (initImgState url)
          = handleImageError (handleImageError^[k + 2] (initImgState url)) :=
        Function.iterate_succ_apply' handleImageError (k + 2) (initImgState url)
      rw [show k + 1 + 2 = k + 2 + 1 by omega, h, ih,
        handleImageError_terminal_fixed]

/-- One error step never pushes the placeholder count above 1. -/
lemma handleImageError_count_le (s : ImgState) (h : s.placeholderCount ≤ 1) :
    (handleImageError s).placeholderCount ≤ 1 := by
  unfold handleImageError
  by_cases hf : s.fallbackAttempted <;> by_cases hc : s.placeholderCount = 0 <;>
    simp [hf, hc, h]

/-- Along any error trajectory from a fresh image, at most one
placeholder element exists. -/
lemma iterate_count_le (url : String) (n : Nat) :
    (handleImageError^[n] (initImgState url)).placeholderCount ≤ 1 := by
  induction n with
  | zero => simp [initImgState]
  | succ k ih =>
      rw [Function.iterate_succ_apply' handleImageError k (initImgState url)]
      exact handleImageError_count_le _ ih

/- ------------------------------------------------------------------ -/
/- Claim theorems                                                      -/
/- ------------------------------------------------------------------ -/

/-- Claim C1: the stale-response guard the spec requires is absent from
`fetchArticles`.  Concrete failing trace: `load(A)` (page 1) is issued,
then `load(B)` (page 2) is issued before A resolves; B's response
arrives first, then A's.  The code applies whichever response arrives
last, so the final state shows A's articles and page, not B's — the
spec requires the final state to reflect B, never A. -/
theorem c1_stale_response_bug :
    (fetchArticlesResolve (.ok [sampleArticleA] 1 3)
      (fetchArticlesResolve (.ok [sampleArticleB] 2 3)
        (fetchArticlesStart (fetchArticlesStart initialState)))).articles
        = [sampleArticleA]
    ∧ (fetchArticlesResolve (.ok [sampleArticleA] 1 3)
        (fetchArticlesResolve (.ok [sampleArticleB] 2 3)
          (fetchArticlesStart (fetchArticlesStart initialState)))).currentPage = 1
    ∧ [sampleArticleA] ≠ [sampleArticleB] := by
  refine ⟨rfl, rfl, ?_⟩
  decide

/-- Claim C2: refresh coalescing.  From any non-refreshing state, the
first refresh click issues exactly one `triggerRefresh` network call;
a second click issued while the first is still outstanding is a no-op —
it issues no network call and leaves the state unchanged — so two
overlapping refresh invocations make exactly one `POST /refresh`. -/
theorem c2_refresh_coalescing (s : HomeState) (h : s.refreshing = false) :
    ((clickRefresh s).2).isSome = true
    ∧ (clickRefresh (clickRefresh s).1).2 = none
    ∧ (clickRefresh (clickRefresh s).1).1 = (clickRefresh s).1 := by
  simp [clickRefresh, h]

/-- Witness for C2: concrete overlapping-click trace from the initial
state makes exactly one network call. -/
theorem c2_refresh_coalescing_witness :
    ((clickRefresh initialState).2).isSome = true
    ∧ (clickRefresh (clickRefresh initialState).1).2 = none
    ∧ (clickRefresh (clickRefresh initialState).1).1 = (clickRefresh initialState).1 :=
  c2_refresh_coalescing initialState rfl

/-- Claim C3 counterexample: the claim says a failed load clears the
article list to empty.  Concretely: the controller holds one article,
a load fails with a non-ok response, and the article list is still
nonempty afterwards — the code never clears `articles` on failure. -/
theorem c3_counterexample :
    (fetchArticlesResolve (.err none)
        (fetchArticlesStart { initialState with articles := [sampleArticleA] })).articles
      ≠ [] := by
  simp [fetchArticlesResolve, fetchArticlesStart, initialState]

/-- Claim C3 (amended): on every failed load (non-ok response or
transport failure) the controller ends not-loading with a nonempty
errorMessage, and the previously held article list is left unchanged —
not cleared; on every successful load the article list is set from the
response and any previous errorMessage is cleared. -/
theorem c3_amended (s : HomeState) (r : ArticlesResponse) :
    ((∃ e, r = .err e) ∨ r = .netfail →
      (fetchArticlesResolve r s).error ≠ ""
      ∧ (fetchArticlesResolve r s).articles = s.articles
      ∧ (fetchArticlesResolve r s).loading = false)
    ∧ (∀ arts cp tp, r = .ok arts cp tp →
      (fetchArticlesResolve r s).articles = arts
      ∧ (fetchArticlesResolve r s).error = ""
      ∧ (fetchArticlesResolve r s).loading = false) := by
  constructor
  · rintro (⟨e, rfl⟩ | rfl)
    · exact ⟨jsOr_fetch_fallback_ne_empty e, rfl, rfl⟩
    · refine ⟨?_, rfl, rfl⟩
      simp [fetchArticlesResolve]
  · rintro arts cp tp rfl
    exact ⟨rfl, rfl, rfl⟩

/-- Witness for C3 (amended): evaluated on a concrete failed load and a
concrete successful load from the initial state. -/
theorem c3_amended_witness :
    ((fetchArticlesResolve (.err none) initialState).error ≠ ""
      ∧ (fetchArticlesResolve (.err none) initialState).articles = initialState.articles
      ∧ (fetchArticlesResolve (.err none) initialState).loading = false)
    ∧ ((fetchArticlesResolve (.ok [sampleArticleA] 1 1) initialState).articles
          = [sampleArticleA]
      ∧ (fetchArticlesResolve (.ok [sampleArticleA] 1 1) initialState).error = ""
      ∧ (fetchArticlesResolve (.ok [sampleArticleA] 1 1) initialState).loading = false) :=
  ⟨(c3_amended initialState (.err none)).1 (Or.inl ⟨none, rfl⟩),
   (c3_amended initialState (.ok [sampleArticleA] 1 1)).2 [sampleArticleA] 1 1 rfl⟩

/-- Claim C4 counterexample: refresh is invoked at page 2, category
"helse"; while the refresh call is outstanding the user switches the
category to "" (which also resets the page to 1); when the refresh
response arrives, the reload request built by the code uses the
closure-captured pair (2, "helse"), which differs from the request the
then-current FilterPageState (1, "") would produce — so the reload does
not use the state current at completion time. -/
theorem c4_counterexample :
    (clickRefresh statePage2Helse).2.map refreshReloadRequest
      ≠ some (mkArticlesRequest
          ((handleCategoryChange "" (clickRefresh statePage2Helse).1).1).currentPage
          ((handleCategoryChange "" (clickRefresh statePage2Helse).1).1).selectedCategory) := by
  decide

/-- Claim C4 (amended): the reload that follows a successful
`triggerRefresh` uses the FilterPageState captured by the handler's
closure when `refresh()` was invoked — not the state current when the
refresh network call completes. -/
theorem c4_amended (s : HomeState) (h : s.refreshing = false) :
    (clickRefresh s).2.map refreshReloadRequest
      = some (mkArticlesRequest s.currentPage s.selectedCategory) := by
  simp [clickRefresh, h, refreshReloadRequest]

/-- Witness for C4 (amended): concrete refresh click at page 2,
category "helse" captures exactly that pair for the reload. -/
theorem c4_amended_witness :
    (clickRefresh statePage2Helse).2.map refreshReloadRequest
      = some (mkArticlesRequest 2 "helse") :=
  c4_amended statePage2Helse rfl

/-- Claim C5: for every category `c` and every prior state,
`handleCategoryChange c` sets the selected category to `c`, resets the
page to 1, and the single load it triggers requests page 1 with
category `c` (omitted from the query exactly when `c` is empty, i.e.
"all"). -/
theorem c5_setCategory_resets_page (c : String) (s : HomeState) :
    (handleCategoryChange c s).1.selectedCategory = c
    ∧ (handleCategoryChange c s).1.currentPage = 1
    ∧ (handleCategoryChange c s).2.page = 1
    ∧ (handleCategoryChange c s).2.category
        = (if c = "" then none else some c) := by
  refine ⟨rfl, rfl, rfl, rfl⟩

/-- Claim C6: the per-image fallback machine is one-directional and
terminal.  A fresh image is in `Primary`; the first error moves it to
`FallbackImage` with the fixed fallback source (the single
fallback-image attempt); the second error moves it to
`FallbackPlaceholder`; and for every number of further error events the
state equals the state after two errors, so it remains
`FallbackPlaceholder` forever. -/
theorem c6_image_fallback (url : String) (n : Nat) :
    imgPhase (initImgState url) = .primary
    ∧ imgPhase (handleImageError (initImgState url)) = .fallbackImage
    ∧ (handleImageError (initImgState url)).src = fallbackImageUrl
    ∧ imgPhase (handleImageError^[n + 2] (initImgState url)) = .fallbackPlaceholder
    ∧ handleImageError^[n + 2] (initImgState url)
        = handleImageError^[2] (initImgState url) := by
  refine ⟨rfl, rfl, rfl, ?_, ?_⟩
  · rw [iterate_stabilizes url n]; rfl
  · rw [iterate_stabilizes url n, iterate_two_eq_terminal url]

/-- Claim C7: auxiliary-controller failure isolation.  A failed stats
fetch and a failed categories fetch leave the whole component state
unchanged (so in particular the article-list state); and in the
concrete interleaving where `getStats` fails by transport error while
`listArticles` succeeds, the article listing still reaches Ready:
loading is over, the error is empty and the articles are the
response's. -/
theorem c7_auxiliary_isolation (s : HomeState) (rs : StatsResponse)
    (rc : CategoriesResponse) (arts : List Article) (cp tp : Int) :
    (rs.failed = true → fetchStatsResolve rs s = s)
    ∧ (rc.failed = true → fetchCategoriesResolve rc s = s)
    ∧ ((fetchArticlesResolve (.ok arts cp tp)
          (fetchStatsResolve .netfail (fetchArticlesStart s))).loading = false
      ∧ (fetchArticlesResolve (.ok arts cp tp)
          (fetchStatsResolve .netfail (fetchArticlesStart s))).error = ""
      ∧ (fetchArticlesResolve (.ok arts cp tp)
          (fetchStatsResolve .netfail (fetchArticlesStart s))).articles = arts) := by
  refine ⟨?_, ?_, rfl, rfl, rfl⟩
  · intro h
    cases rs with
    | ok st => simp [StatsResponse.failed] at h
    | err => rfl
    | netfail => rfl
  · intro h
    cases rc with
    | ok cats => simp [CategoriesResponse.failed] at h
    | err => rfl
    | netfail => rfl

/-- Witness for C7: concrete trace from the initial state in which the
stats fetch fails by transport error, the categories fetch fails with a
non-ok response, and the article load succeeds with one article. -/
theorem c7_auxiliary_isolation_witness :
    (fetchStatsResolve .netfail initialState = initialState)
    ∧ (fetchCategoriesResolve .err initialState = initialState)
    ∧ ((fetchArticlesResolve (.ok [sampleArticleA] 1 1)
          (fetchStatsResolve .netfail (fetchArticlesStart initialState))).loading = false
      ∧ (fetchArticlesResolve (.ok [sampleArticleA] 1 1)
          (fetchStatsResolve .netfail (fetchArticlesStart initialState))).error = ""
      ∧ (fetchArticlesResolve (.ok [sampleArticleA] 1 1)
          (fetchStatsResolve .netfail (fetchArticlesStart initialState))).articles
            = [sampleArticleA]) :=
  ⟨(c7_auxiliary_isolation initialState .netfail .err [sampleArticleA] 1 1).1 rfl,
   (c7_auxiliary_isolation initialState .netfail .err [sampleArticleA] 1 1).2.1 rfl,
   (c7_auxiliary_isolation initialState .netfail .err [sampleArticleA] 1 1).2.2⟩

/-- Claim C8: the two failure kinds of a load get distinct messages.
A non-ok server response with a nonempty server message `m` yields
errorMessage `m`; a non-ok response without a server message yields the
generic fallback "Kunne ikke hente artikler"; a transport failure
yields the generic network message "Nettverksfeil ved henting av
artikler". -/
theorem c8_error_messages (s : HomeState) (m : String) (h : m ≠ "") :
    (fetchArticlesResolve (.err (some m)) s).error = m
    ∧ (fetchArticlesResolve (.err none) s).error = "Kunne ikke hente artikler"
    ∧ (fetchArticlesResolve .netfail s).error
        = "Nettverksfeil ved henting av artikler" := by
  refine ⟨?_, rfl, rfl⟩
  simp [fetchArticlesResolve, jsOr, h]

/-- Witness for C8: concrete server message on the initial state. -/
theorem c8_error_messages_witness :
    (fetchArticlesResolve (.err (some "Ingen tilgang")) initialState).error
        = "Ingen tilgang"
    ∧ (fetchArticlesResolve (.err none) initialState).error
        = "Kunne ikke hente artikler"
    ∧ (fetchArticlesResolve .netfail initialState).error
        = "Nettverksfeil ved henting av artikler" :=
  c8_error_messages initialState "Ingen tilgang" (by decide)

/-- Claim C9 counterexample: `setPage` does not preserve page ≥ 1 for
every integer argument — from the initial state (page 1, satisfying the
invariant), `handlePageChange 0` leaves the current page at 0. -/
theorem c9_counterexample :
    ¬ (1 ≤ (handlePageChange 0 initialState).1.currentPage) := by
  decide

/-- Claim C9 (amended): `setCategory` always resets the page to 1, so
it preserves page ≥ 1 unconditionally; `setPage p` stores `p` with no
clamping, so it preserves page ≥ 1 exactly when `p ≥ 1`; the UI's
pagination controls only ever call it with `currentPage ± 1` under
disabled-guards, and those clicks preserve page ≥ 1 from any state
satisfying it. -/
theorem c9_amended (s : HomeState) (c : String) (p : Int)
    (hp : 1 ≤ p) (hs : 1 ≤ s.currentPage) :
    (handleCategoryChange c s).1.currentPage = 1
    ∧ (handlePageChange p s).1.currentPage = p
    ∧ 1 ≤ (handlePageChange p s).1.currentPage
    ∧ 1 ≤ (clickPrevPage s).currentPage
    ∧ 1 ≤ (clickNextPage s).currentPage := by
  refine ⟨rfl, rfl, hp, ?_, ?_⟩
  · unfold clickPrevPage
    by_cases h : s.currentPage = 1
    · simp [h]
    · have h2 : 2 ≤ s.currentPage := by omega
      simp only [h, if_false, handlePageChange]
      omega
  · unfold clickNextPage
    by_cases h : s.currentPage = s.totalPages
    · simpa [h] using hs
    · simp only [h, if_false, handlePageChange]
      omega

/-- Witness for C9 (amended): evaluated at page 2 of 3 with argument 1. -/
theorem c9_amended_witness :
    (handleCategoryChange "helse" statePage2Of3).1.currentPage = 1
    ∧ (handlePageChange 1 statePage2Of3).1.currentPage = 1
    ∧ 1 ≤ (handlePageChange 1 statePage2Of3).1.currentPage
    ∧ 1 ≤ (clickPrevPage statePage2Of3).currentPage
    ∧ 1 ≤ (clickNextPage statePage2Of3).currentPage :=
  c9_amended statePage2Of3 "helse" 1 (by decide) (by decide)

/-- Claim C10: placeholder idempotence.  Along any trajectory of error
events from a fresh image, at most one `.image-fallback` element is
ever appended (the `querySelector` guard), and once the placeholder
stage has been entered — after two errors — every further error event
leaves the DOM state exactly unchanged. -/
theorem c10_placeholder_idempotent (url : String) (n : Nat) :
    (handleImageError^[n] (initImgState url)).placeholderCount ≤ 1
    ∧ handleImageError (handleImageError^[n + 2] (initImgState url))
        = handleImageError^[n + 2] (initImgState url) := by
  refine ⟨iterate_count_le url n, ?_⟩
  rw [iterate_stabilizes url n, handleImageError_terminal_fixed]
